import Mathlib

/-! Shallow embedding of the multi-user WhatsApp session server:
    the ConnectionSemaphore admission gate, the UserWhatsAppSession state
    and its connection.update / heartbeat / send / pairing handlers, the
    recovery sweeper, and the HTTP-facing send and status operations. -/

namespace WhatsServer

/-- State of the `ConnectionSemaphore` class: `maxConcurrent` capacity,
    `current` count of granted slots, and `queue` of waiting callers in
    arrival order.  `current` is an `Int` because the JS counter could in
    principle be driven below zero by an unbalanced `release()`. -/
structure ConnectionSemaphore where
  maxConcurrent : Nat
  current : Int
  queue : List Nat
  deriving Repr, DecidableEq

/-- Constructor `new ConnectionSemaphore(n)`. -/
def ConnectionSemaphore.init (n : Nat) : ConnectionSemaphore :=
  { maxConcurrent := n, current := 0, queue := [] }

/-- Method `acquire()`, tagged with a caller id: grants immediately when
    below capacity, otherwise pushes the caller onto the wait queue.  The
    returned Bool records whether the slot was granted immediately. -/
def ConnectionSemaphore.acquire (s : ConnectionSemaphore) (caller : Nat) :
    ConnectionSemaphore × Bool :=
  if s.current < (s.maxConcurrent : Int) then
    ({ s with current := s.current + 1 }, true)
  else
    ({ s with queue := s.queue ++ [caller] }, false)

/-- Method `release()`: decrements `current`; when the queue is non-empty,
    takes the front caller (`queue.shift()`), re-increments `current` and
    resumes that caller (returned as `some next`). -/
def ConnectionSemaphore.release (s : ConnectionSemaphore) :
    ConnectionSemaphore × Option Nat :=
  match s.queue with
  | [] => ({ s with current := s.current - 1 }, none)
  | next :: rest =>
      ({ s with current := s.current - 1 + 1, queue := rest }, some next)

/-- An operation performed on the shared gate. -/
inductive GateOp where
  | acq (caller : Nat)
  | rel
  deriving Repr, DecidableEq

/-- One gate operation applied to the gate state. -/
def ConnectionSemaphore.step (s : ConnectionSemaphore) : GateOp → ConnectionSemaphore
  | .acq c => (s.acquire c).1
  | .rel => s.release.1

/-- A sequence of gate operations applied in order. -/
def ConnectionSemaphore.run (s : ConnectionSemaphore) (ops : List GateOp) :
    ConnectionSemaphore :=
  ops.foldl ConnectionSemaphore.step s

/-- Several `acquire()` calls arriving in the order of the list. -/
def acquireAll (s : ConnectionSemaphore) (callers : List Nat) : ConnectionSemaphore :=
  callers.foldl (fun t c => (t.acquire c).1) s

theorem ConnectionSemaphore.step_maxConcurrent (s : ConnectionSemaphore) (op : GateOp) :
    (s.step op).maxConcurrent = s.maxConcurrent := by
  cases op with
  | acq c =>
      simp only [step, acquire]
      split <;> rfl
  | rel =>
      simp only [step, release]
      split <;> rfl

theorem ConnectionSemaphore.step_current_le (s : ConnectionSemaphore) (op : GateOp)
    (h : s.current ≤ (s.maxConcurrent : Int)) :
    (s.step op).current ≤ ((s.step op).maxConcurrent : Int) := by
  rw [step_maxConcurrent]
  obtain ⟨max, cur, q⟩ := s
  cases op with
  | acq c =>
      simp only [step, acquire] at *
      split <;> simp_all
      omega
  | rel =>
      simp only [step, release] at *
      split <;> simp_all
      omega

theorem ConnectionSemaphore.run_maxConcurrent (s : ConnectionSemaphore)
    (ops : List GateOp) : (s.run ops).maxConcurrent = s.maxConcurrent := by
  induction ops generalizing s with
  | nil => rfl
  | cons op ops ih =>
      show ((s.step op).run ops).maxConcurrent = s.maxConcurrent
      exact (ih (s.step op)).trans (step_maxConcurrent s op)

theorem ConnectionSemaphore.run_current_le (s : ConnectionSemaphore) (ops : List GateOp)
    (h : s.current ≤ (s.maxConcurrent : Int)) :
    (s.run ops).current ≤ ((s.run ops).maxConcurrent : Int) := by
  induction ops generalizing s with
  | nil => exact h
  | cons op ops ih =>
      show ((s.step op).run ops).current ≤ _
      exact ih (s.step op) (step_current_le s op h)

theorem acquireAll_fill (callers : List Nat) (s : ConnectionSemaphore)
    (hq : s.queue = [])
    (h : s.current + (callers.length : Int) ≤ (s.maxConcurrent : Int)) :
    acquireAll s callers = { s with current := s.current + (callers.length : Int) } := by
  induction callers generalizing s with
  | nil =>
      obtain ⟨max, cur, q⟩ := s
      simp [acquireAll]
  | cons c callers ih =>
      obtain ⟨max, cur, q⟩ := s
      simp only at hq
      subst hq
      have hlt : cur < (max : Int) := by
        simp only [List.length_cons] at h
        push_cast at h
        omega
      have hstep : (ConnectionSemaphore.acquire ⟨max, cur, []⟩ c).1
          = ⟨max, cur + 1, []⟩ := by
        simp [ConnectionSemaphore.acquire, hlt]
      have hrec := ih ⟨max, cur + 1, []⟩ rfl
        (by simp only [List.length_cons] at h; push_cast at h ⊢; omega)
      show acquireAll ((ConnectionSemaphore.acquire ⟨max, cur, []⟩ c).1) callers = _
      rw [hstep, hrec]
      congr 1
      simp only [List.length_cons]
      push_cast
      ring

theorem acquireAll_stall (callers : List Nat) (s : ConnectionSemaphore)
    (h : ¬ s.current < (s.maxConcurrent : Int)) :
    acquireAll s callers = { s with queue := s.queue ++ callers } := by
  induction callers generalizing s with
  | nil =>
      obtain ⟨max, cur, q⟩ := s
      simp [acquireAll]
  | cons c callers ih =>
      obtain ⟨max, cur, q⟩ := s
      have hstep : (ConnectionSemaphore.acquire ⟨max, cur, q⟩ c).1
          = ⟨max, cur, q ++ [c]⟩ := by
        simp only [ConnectionSemaphore.acquire]
        rw [if_neg h]
      show acquireAll ((ConnectionSemaphore.acquire ⟨max, cur, q⟩ c).1) callers = _
      rw [hstep, ih ⟨max, cur, q ++ [c]⟩ h]
      simp

theorem acquireAll_append (s : ConnectionSemaphore) (l₁ l₂ : List Nat) :
    acquireAll s (l₁ ++ l₂) = acquireAll (acquireAll s l₁) l₂ := by
  simp [acquireAll, List.foldl_append]

/-- Events of one `start()` call with respect to the gate and the
    transport: `start()` begins with `await connectionSemaphore.acquire()`,
    the `try` body creates the socket via `makeWASocket` unless an error is
    thrown before that point (`socketCreated = false`), and the `finally`
    block always runs `connectionSemaphore.release()` exactly once, on the
    success path and on the failure path alike. -/
inductive StartEvent where
  | acquireSem
  | createSocket
  | releaseSem
  deriving Repr, DecidableEq

/-- The gate/transport event trace of one `start()` call. -/
def startTrace (socketCreated : Bool) : List StartEvent :=
  [StartEvent.acquireSem]
    ++ (if socketCreated then [StartEvent.createSocket] else [])
    ++ [StartEvent.releaseSem]

/-- C1: for the Admission Gate (`ConnectionSemaphore`) with capacity `N`:
    (1) along any sequence of gate operations from the initial state at most
    `N` callers hold the gate (`current ≤ N`); (2) `release()` grants the
    freed slot to the head of the wait queue, i.e. the longest-waiting
    caller, and a blocked `acquire` appends at the tail, so admission is
    FIFO in arrival order; (3) `M > N` simultaneous `start()` arrivals leave
    exactly `N` slots held with callers `N, …, M-1` queued in arrival
    order; (4) every `start()` acquires the gate before creating the
    socket and releases it exactly once afterwards, on both the success
    path and the failure path. -/
theorem C1_admission_gate_bounds_and_fifo (N M : Nat) (hNM : N < M)
    (ops : List GateOp) (s : ConnectionSemaphore) (c : Nat)
    (hfull : ¬ s.current < (s.maxConcurrent : Int)) :
    (((ConnectionSemaphore.init N).run ops).current ≤ (N : Int))
    ∧ (s.release.2 = s.queue.head? ∧ s.release.1.queue = s.queue.tail)
    ∧ ((s.acquire c).1.queue = s.queue ++ [c])
    ∧ ((acquireAll (ConnectionSemaphore.init N) (List.range M)).current = (N : Int)
        ∧ (acquireAll (ConnectionSemaphore.init N) (List.range M)).queue
            = (List.range (M - N)).map (fun k => N + k))
    ∧ (startTrace true
          = [StartEvent.acquireSem, StartEvent.createSocket, StartEvent.releaseSem]
        ∧ startTrace false = [StartEvent.acquireSem, StartEvent.releaseSem]) := by
  have hA : ((ConnectionSemaphore.init N).run ops).current ≤ (N : Int) := by
    have h := ConnectionSemaphore.run_current_le (ConnectionSemaphore.init N) ops
      (by simp [ConnectionSemaphore.init])
    rwa [ConnectionSemaphore.run_maxConcurrent] at h
  have hB1 : s.release.2 = s.queue.head? := by
    obtain ⟨max, cur, q⟩ := s
    cases q <;> simp [ConnectionSemaphore.release]
  have hB2 : s.release.1.queue = s.queue.tail := by
    obtain ⟨max, cur, q⟩ := s
    cases q <;> simp [ConnectionSemaphore.release]
  have hC : (s.acquire c).1.queue = s.queue ++ [c] := by
    obtain ⟨max, cur, q⟩ := s
    simp only [ConnectionSemaphore.acquire]
    rw [if_neg hfull]
  have hD : (acquireAll (ConnectionSemaphore.init N) (List.range M)).current = (N : Int)
      ∧ (acquireAll (ConnectionSemaphore.init N) (List.range M)).queue
          = (List.range (M - N)).map (fun k => N + k) := by
    obtain ⟨K, rfl⟩ : ∃ K, M = N + K := ⟨M - N, by omega⟩
    have hK : N + K - N = K := by omega
    rw [hK]
    have hfill : acquireAll (ConnectionSemaphore.init N) (List.range N)
        = ⟨N, (N : Int), []⟩ := by
      have h := acquireAll_fill (List.range N) (ConnectionSemaphore.init N) rfl
        (by simp [ConnectionSemaphore.init])
      simpa [ConnectionSemaphore.init] using h
    have hstall := acquireAll_stall ((List.range K).map (fun k => N + k))
      ⟨N, (N : Int), []⟩ (by simp)
    rw [List.range_add, acquireAll_append, hfill, hstall]
    simp
  exact ⟨hA, ⟨hB1, hB2⟩, hC, hD, rfl, rfl⟩

/-- Witness for C1 at capacity 2, five simultaneous starts, a concrete
    operation sequence and a concrete saturated gate with two waiters. -/
theorem C1_admission_gate_witness :
    (((ConnectionSemaphore.init 2).run
        [GateOp.acq 0, GateOp.acq 1, GateOp.acq 2, GateOp.rel]).current ≤ (2 : Int))
    ∧ ((ConnectionSemaphore.release ⟨2, 2, [9, 10]⟩).2 = [9, 10].head?
        ∧ (ConnectionSemaphore.release ⟨2, 2, [9, 10]⟩).1.queue = [10])
    ∧ ((ConnectionSemaphore.acquire ⟨2, 2, [9, 10]⟩ 11).1.queue = [9, 10, 11])
    ∧ ((acquireAll (ConnectionSemaphore.init 2) (List.range 5)).current = (2 : Int)
        ∧ (acquireAll (ConnectionSemaphore.init 2) (List.range 5)).queue
            = (List.range 3).map (fun k => 2 + k)) := by
  have h := C1_admission_gate_bounds_and_fifo 2 5 (by omega)
    [GateOp.acq 0, GateOp.acq 1, GateOp.acq 2, GateOp.rel]
    ⟨2, 2, [9, 10]⟩ 11 (by decide)
  exact ⟨h.1, ⟨h.2.1.1, h.2.1.2.trans rfl⟩, h.2.2.1.trans rfl, h.2.2.2.1⟩

/-- Substring test on character lists, with the semantics of JS
    `String.prototype.includes` (the empty pattern is contained in every
    string). -/
def listContains (pat l : List Char) : Bool :=
  match l with
  | [] => pat.isEmpty
  | _ :: t => pat.isPrefixOf l || listContains pat t

/-- JS `s.includes(pat)`. -/
def strContains (s pat : String) : Bool :=
  listContains pat.toList s.toList

/-- The mutable per-user state of the `UserWhatsAppSession` class.
    `sockPresent` models whether `this.sock` is non-null;
    `reconnectTimeout` models the pending reconnect timer as
    `some (delayMs, forceNewArg)`; `heartbeatIntervalActive` models whether
    `this.heartbeatInterval` is set; `authPath` models `this.authPath`,
    which is read in the 401 close branch but never assigned anywhere in
    the class, hence `none` (undefined) on every reachable state. -/
structure UserWhatsAppSession where
  userId : String
  sockPresent : Bool
  qrCodeData : Option String
  isConnected : Bool
  connectionState : String
  reconnectTimeout : Option (Nat × Bool)
  heartbeatIntervalActive : Bool
  heartbeatFailures : Nat
  reconnectAttempts : Nat
  maxReconnectAttempts : Nat
  pairingCode : Option String
  phoneNumber : Option String
  authPath : Option String
  deriving Repr, DecidableEq

/-- The constructor `new UserWhatsAppSession(userId)`. -/
def UserWhatsAppSession.new (userId : String) : UserWhatsAppSession :=
  { userId := userId
    sockPresent := false
    qrCodeData := none
    isConnected := false
    connectionState := "disconnected"
    reconnectTimeout := none
    heartbeatIntervalActive := false
    heartbeatFailures := 0
    reconnectAttempts := 0
    maxReconnectAttempts := 5
    pairingCode := none
    phoneNumber := none
    authPath := none }

/-- Baileys close reason codes used by the handler. -/
def DisconnectReason.loggedOut : Nat := 401

def DisconnectReason.badSession : Nat := 500

def DisconnectReason.multideviceMismatch : Nat := 411

/-- The `connection === 'close'` branch of the `connection.update` handler
    installed by `start()`.  `statusCode` is
    `lastDisconnect?.error?.output?.statusCode` (possibly undefined),
    `errorMessage` the error message, `rand5000` models
    `Math.random() * 5000`, and `fsEnv` models `fs.existsSync` on defined
    paths.  Returns the mutated session (with any scheduled reconnect timer
    in `reconnectTimeout`) together with whether the 401 branch actually
    removed a credentials file. -/
def closeUpdate (fsEnv : String → Bool) (s : UserWhatsAppSession)
    (statusCode : Option Nat) (errorMessage : String) (rand5000 : Nat) :
    UserWhatsAppSession × Bool :=
  let s1 := { s with isConnected := false, connectionState := "disconnected" }
  let s2 :=
    if statusCode ≠ some 408 ∧ statusCode ≠ some 428 then
      { s1 with qrCodeData := none }
    else s1
  if statusCode = some 515 ∨ strContains errorMessage "stream errored" = true then
    ({ s2 with reconnectTimeout := some (8000, false) }, false)
  else if statusCode = some 408 then
    ({ s2 with reconnectTimeout := some (3000, false) }, false)
  else if statusCode = some 428 ∨ strContains errorMessage "Connection Terminated" = true then
    ({ s2 with reconnectTimeout := some (10000, false) }, false)
  else if statusCode = some 401 then
    let wiped :=
      match s.authPath with
      | none => false
      | some p => fsEnv p
    ({ s2 with reconnectTimeout := some (2000, true) }, wiped)
  else if statusCode = some 440 then
    ({ s2 with reconnectTimeout := some (15000, false) }, false)
  else if ¬ (statusCode = some DisconnectReason.loggedOut
      ∨ statusCode = some DisconnectReason.badSession
      ∨ statusCode = some DisconnectReason.multideviceMismatch) then
    let delay := min (5000 + rand5000) 20000
    ({ s2 with reconnectTimeout := some (delay, false) }, false)
  else
    (s2, false)

/-- Outcome of one heartbeat probe
    (`sock.query` raced against the 15 s timeout). -/
inductive ProbeResult where
  | success
  | failure (msg : String)
  deriving Repr, DecidableEq

/-- One firing of the `setInterval` callback installed by
    `startHeartbeat()`.  The body runs only when `isConnected && sock`.
    Success resets the failure counter; failure increments it, and at the
    3rd consecutive failure the session is marked disconnected, the
    interval cleared and the counter reset, with an automatic
    `start(false)` scheduled only when the probe error message contains
    `Connection Closed` or `closed`.  The returned Bool records whether
    that reconnect was scheduled. -/
def heartbeatTick (s : UserWhatsAppSession) (r : ProbeResult) :
    UserWhatsAppSession × Bool :=
  if s.isConnected = true ∧ s.sockPresent = true then
    match r with
    | .success => ({ s with heartbeatFailures := 0 }, false)
    | .failure msg =>
        let f := s.heartbeatFailures + 1
        if 3 ≤ f then
          let scheduled :=
            strContains msg "Connection Closed" || strContains msg "closed"
          ({ s with isConnected := false
                    connectionState := "disconnected"
                    heartbeatIntervalActive := false
                    heartbeatFailures := 0 }, scheduled)
        else
          ({ s with heartbeatFailures := f }, false)
  else
    (s, false)

/-- Modelled after the close handling in
    `src/data/whatsapp_baileys_multi.js` lines 145-164: when the extracted
    code equals `DisconnectReason.loggedOut` (which is 401) or the literal
    401, the auth bundle is destroyed and the instance deleted with no
    reconnect; for every other code the handler waits 1 s and re-ensures
    the instance (an automatic reconnect).  Returns
    `(credsDestroyedAndInstanceRemoved, reconnectTriggered)`. -/
def multiCloseUpdate (code : Option Nat) : Bool × Bool :=
  if code = some 401 then (true, false) else (false, true)

/-- Session used for the C2 heartbeat scenarios: `Open`, socket present,
    heartbeat running, already at 2 consecutive probe failures. -/
def openHbSession : UserWhatsAppSession :=
  { UserWhatsAppSession.new "u7" with
      isConnected := true
      sockPresent := true
      connectionState := "connected"
      heartbeatIntervalActive := true
      heartbeatFailures := 2 }

/-- C2 counterexample: in an `Open` session with 2 consecutive probe
    failures, a 3rd failing probe whose error is the heartbeat timeout
    (`Heartbeat timeout`, which contains neither `Connection Closed` nor
    `closed`) transitions the session to disconnected but schedules NO
    reconnect, contradicting the claim that the 3rd consecutive failure
    always schedules a reconnect. -/
theorem C2_third_failure_timeout_no_reconnect_counterexample :
    (heartbeatTick openHbSession (ProbeResult.failure "Heartbeat timeout")).1.isConnected
        = false
    ∧ (heartbeatTick openHbSession
        (ProbeResult.failure "Heartbeat timeout")).1.connectionState = "disconnected"
    ∧ (heartbeatTick openHbSession (ProbeResult.failure "Heartbeat timeout")).2 = false := by
  exact ⟨rfl, rfl, rfl⟩

/-- C2 amended: for an `Open` session with the heartbeat running, a probe
    success resets the failure counter to 0 and keeps the session `Open`;
    a 1st or 2nd consecutive failure keeps the session `Open` and only
    increments the counter; the 3rd consecutive failure marks the session
    disconnected, stops the monitor and resets the counter, and schedules
    an automatic reconnect exactly when the probe error message contains
    `Connection Closed` or `closed` (otherwise no reconnect is
    scheduled). -/
theorem C2_heartbeat_threshold_amended (s : UserWhatsAppSession) (msg : String)
    (hconn : s.isConnected = true) (hsock : s.sockPresent = true) :
    ((heartbeatTick s ProbeResult.success).1.heartbeatFailures = 0
      ∧ (heartbeatTick s ProbeResult.success).1.isConnected = true
      ∧ (heartbeatTick s ProbeResult.success).1.connectionState = s.connectionState
      ∧ (heartbeatTick s ProbeResult.success).2 = false)
    ∧ (s.heartbeatFailures + 1 < 3 →
        (heartbeatTick s (ProbeResult.failure msg)).1.isConnected = true
        ∧ (heartbeatTick s (ProbeResult.failure msg)).1.connectionState
            = s.connectionState
        ∧ (heartbeatTick s (ProbeResult.failure msg)).1.heartbeatFailures
            = s.heartbeatFailures + 1
        ∧ (heartbeatTick s (ProbeResult.failure msg)).2 = false)
    ∧ (3 ≤ s.heartbeatFailures + 1 →
        (heartbeatTick s (ProbeResult.failure msg)).1.isConnected = false
        ∧ (heartbeatTick s (ProbeResult.failure msg)).1.connectionState
            = "disconnected"
        ∧ (heartbeatTick s (ProbeResult.failure msg)).1.heartbeatIntervalActive = false
        ∧ (heartbeatTick s (ProbeResult.failure msg)).1.heartbeatFailures = 0
        ∧ (heartbeatTick s (ProbeResult.failure msg)).2
            = (strContains msg "Connection Closed" || strContains msg "closed")) := by
  refine ⟨?_, ?_, ?_⟩
  · simp [heartbeatTick, hconn, hsock]
  · intro hlt
    have h3 : ¬ 3 ≤ s.heartbeatFailures + 1 := by omega
    simp [heartbeatTick, hconn, hsock, h3]
  · intro hge
    simp [heartbeatTick, hconn, hsock, hge]

/-- Witness for C2 amended: at 2 prior failures a 3rd failing probe whose
    error message contains `Connection Closed` disconnects the session and
    does schedule the reconnect. -/
theorem C2_heartbeat_witness :
    (heartbeatTick openHbSession (ProbeResult.failure "Connection Closed")).1.isConnected
        = false
    ∧ (heartbeatTick openHbSession (ProbeResult.failure "Connection Closed")).2 = true := by
  have h := C2_heartbeat_threshold_amended openHbSession "Connection Closed" rfl rfl
  have h3 := h.2.2 (by decide)
  exact ⟨h3.1, h3.2.2.2.2.trans (by decide)⟩

/-- C3 counterexample: a close with status 401 (`DisconnectReason.loggedOut`)
    schedules an automatic reconnect timer `start(forceNew=true)` after
    2000 ms and wipes no credentials (the wipe guard reads the never-assigned
    `this.authPath`), contradicting the claim that sign-out closes wipe
    credentials and schedule no reconnect timer. -/
theorem C3_loggedOut_schedules_forceNew_counterexample :
    ((closeUpdate (fun _ => false) (UserWhatsAppSession.new "u3")
        (some 401) "logged out" 0).1.reconnectTimeout = some (2000, true))
    ∧ ((closeUpdate (fun _ => false) (UserWhatsAppSession.new "u3")
        (some 401) "logged out" 0).2 = false) := by
  exact ⟨rfl, rfl⟩

/-- C3 amended: in `part_002`, a close with status 401 (loggedOut) schedules
    an automatic `start(forceNew=true)` after 2000 ms and wipes nothing;
    closes with status 500 (badSession) or 411 (multideviceMismatch) whose
    message matches no string-based branch schedule no new timer and wipe
    nothing, leaving the session disconnected until an explicit restart.
    In the `whatsapp_baileys_multi.js` variant, 401/loggedOut does destroy
    the credentials and remove the instance without reconnecting, but
    badSession and multideviceMismatch codes trigger an automatic
    reconnect there instead of being terminal. -/
theorem C3_terminal_close_amended (s : UserWhatsAppSession) (msg : String)
    (rand5000 : Nat) (fsEnv : String → Bool)
    (hpath : s.authPath = none)
    (hmsg1 : strContains msg "stream errored" = false)
    (hmsg2 : strContains msg "Connection Terminated" = false) :
    ((closeUpdate fsEnv s (some DisconnectReason.loggedOut) msg rand5000).1.reconnectTimeout
        = some (2000, true)
      ∧ (closeUpdate fsEnv s (some DisconnectReason.loggedOut) msg rand5000).2 = false)
    ∧ ((closeUpdate fsEnv s (some DisconnectReason.badSession) msg rand5000).1.reconnectTimeout
        = s.reconnectTimeout
      ∧ (closeUpdate fsEnv s (some DisconnectReason.badSession) msg rand5000).2 = false
      ∧ (closeUpdate fsEnv s (some DisconnectReason.badSession) msg rand5000).1.isConnected
          = false
      ∧ (closeUpdate fsEnv s (some DisconnectReason.badSession) msg rand5000).1.connectionState
          = "disconnected")
    ∧ ((closeUpdate fsEnv s
          (some DisconnectReason.multideviceMismatch) msg rand5000).1.reconnectTimeout
        = s.reconnectTimeout
      ∧ (closeUpdate fsEnv s
          (some DisconnectReason.multideviceMismatch) msg rand5000).2 = false)
    ∧ (multiCloseUpdate (some 401) = (true, false)
      ∧ multiCloseUpdate (some DisconnectReason.badSession) = (false, true)
      ∧ multiCloseUpdate (some DisconnectReason.multideviceMismatch) = (false, true)) := by
  refine ⟨⟨?_, ?_⟩, ⟨?_, ?_, ?_, ?_⟩, ⟨?_, ?_⟩, by decide, by decide, by decide⟩ <;>
    simp [closeUpdate, DisconnectReason.loggedOut, DisconnectReason.badSession,
      DisconnectReason.multideviceMismatch, hpath, hmsg1, hmsg2]

/-- Witness for C3 amended at a concrete session and message. -/
theorem C3_terminal_close_witness :
    (closeUpdate (fun _ => true) (UserWhatsAppSession.new "u3w")
        (some 500) "Bad Session" 0).1.reconnectTimeout = none
    ∧ (closeUpdate (fun _ => true) (UserWhatsAppSession.new "u3w")
        (some 500) "Bad Session" 0).2 = false := by
  have h := C3_terminal_close_amended (UserWhatsAppSession.new "u3w") "Bad Session" 0
    (fun _ => true) rfl (by decide) (by decide)
  exact ⟨h.2.1.1.trans rfl, h.2.1.2.1⟩

/-- C4 counterexample: for an unclassified close reason (status 503), two
    sessions that differ only in `reconnectAttempts` (0 versus 4) are given
    exactly the same retry delay of 5000 ms at the same random draw — the
    delay is not computed from the attempt count and does not grow with
    it. -/
theorem C4_backoff_ignores_attemptCount_counterexample :
    (closeUpdate (fun _ => false)
        { UserWhatsAppSession.new "u4" with reconnectAttempts := 0 }
        (some 503) "boom" 0).1.reconnectTimeout
      = (closeUpdate (fun _ => false)
        { UserWhatsAppSession.new "u4" with reconnectAttempts := 4 }
        (some 503) "boom" 0).1.reconnectTimeout
    ∧ (closeUpdate (fun _ => false)
        { UserWhatsAppSession.new "u4" with reconnectAttempts := 0 }
        (some 503) "boom" 0).1.reconnectTimeout = some (5000, false) := by
  exact ⟨rfl, rfl⟩

/-- C4 amended: for a close whose status is outside every explicitly
    classified bucket (not 515/408/428/401/440 and not
    loggedOut/badSession/multideviceMismatch) and whose message matches no
    string-based branch, the handler schedules `start(false)` after
    `min(5000 + rand, 20000)` ms where `rand` is the random draw in
    `[0, 5000)` — a randomized delay in `[5000, 10000)` bounded by the
    20000 ceiling — and this delay is independent of
    `reconnectAttempts`, which the handler never modifies (the field is
    only ever reset on a successful open). -/
theorem C4_backoff_amended (s : UserWhatsAppSession) (code : Nat) (msg : String)
    (rand5000 : Nat) (fsEnv : String → Bool) (k : Nat)
    (hrand : rand5000 < 5000)
    (hc1 : code ≠ 515) (hc2 : code ≠ 408) (hc3 : code ≠ 428) (hc4 : code ≠ 401)
    (hc5 : code ≠ 440) (hc6 : code ≠ 500) (hc7 : code ≠ 411)
    (hmsg1 : strContains msg "stream errored" = false)
    (hmsg2 : strContains msg "Connection Terminated" = false) :
    (closeUpdate fsEnv s (some code) msg rand5000).1.reconnectTimeout
        = some (5000 + rand5000, false)
    ∧ 5000 ≤ 5000 + rand5000 ∧ 5000 + rand5000 < 10000 ∧ 5000 + rand5000 ≤ 20000
    ∧ (closeUpdate fsEnv { s with reconnectAttempts := k }
          (some code) msg rand5000).1.reconnectTimeout
        = (closeUpdate fsEnv s (some code) msg rand5000).1.reconnectTimeout
    ∧ (closeUpdate fsEnv s (some code) msg rand5000).1.reconnectAttempts
        = s.reconnectAttempts := by
  have hmin : min (5000 + rand5000) 20000 = 5000 + rand5000 := by omega
  refine ⟨?_, by omega, by omega, by omega, ?_, ?_⟩ <;>
    simp [closeUpdate, DisconnectReason.loggedOut, DisconnectReason.badSession,
      DisconnectReason.multideviceMismatch, hmsg1, hmsg2, hmin,
      hc1, hc2, hc3, hc4, hc5, hc6, hc7]

/-- Witness for C4 amended at status 503 and random draw 123. -/
theorem C4_backoff_witness :
    (closeUpdate (fun _ => false) (UserWhatsAppSession.new "u4w")
        (some 503) "boom" 123).1.reconnectTimeout = some (5123, false)
    ∧ (closeUpdate (fun _ => false) (UserWhatsAppSession.new "u4w")
        (some 503) "boom" 123).1.reconnectAttempts = 0 := by
  have h := C4_backoff_amended (UserWhatsAppSession.new "u4w") 503 "boom" 123
    (fun _ => false) 9 (by omega) (by decide) (by decide) (by decide) (by decide)
    (by decide) (by decide) (by decide) (by decide) (by decide)
  exact ⟨h.1.trans rfl, h.2.2.2.2.2.trans rfl⟩

/-- The `qr` branch of the `connection.update` handler installed by
    `start()`: caches the rendered QR and moves to `qr_generated`.
    It does not touch `pairingCode`. -/
def qrUpdate (s : UserWhatsAppSession) (rendered : String) : UserWhatsAppSession :=
  { s with qrCodeData := some rendered, connectionState := "qr_generated" }

/-- The `isNewLogin` branch of the same handler: when no pairing code is
    cached and a phone number is stored, requests a pairing code and caches
    it.  It does not touch `qrCodeData`. -/
def newLoginPairing (s : UserWhatsAppSession) (code : String) : UserWhatsAppSession :=
  if s.pairingCode = none ∧ s.phoneNumber ≠ none then
    { s with pairingCode := some code, connectionState := "pairing_code_generated" }
  else s

/-- The `connection === 'open'` branch: marks connected, clears both
    artifacts, resets the attempt counter, cancels any reconnect timer and
    starts the heartbeat. -/
def openUpdate (s : UserWhatsAppSession) : UserWhatsAppSession :=
  { s with isConnected := true
           connectionState := "connected"
           qrCodeData := none
           pairingCode := none
           reconnectAttempts := 0
           reconnectTimeout := none
           heartbeatIntervalActive := true }

/-- Effects of `start(forceNew)` on the session fields up to handler
    registration: any pending reconnect timer is cancelled
    (`clearTimeout`, so it is no longer pending), `forceNew` wipes the auth
    folder and clears the QR moving to `generating_qr`, and a fresh socket
    is assigned. -/
def startUpdate (forceNew : Bool) (s : UserWhatsAppSession) : UserWhatsAppSession :=
  let s1 := { s with reconnectTimeout := none }
  let s2 :=
    if forceNew then { s1 with qrCodeData := none, connectionState := "generating_qr" }
    else s1
  { s2 with sockPresent := true }

/-- An observable event in a session's life: a transport lifecycle signal
    delivered to the `connection.update` handler, or mere passage of time.
    Passage of time fires a due reconnect timer (which calls
    `start(forceNew)`); no timer registered anywhere in the source reads or
    clears `qrCodeData` based on when it was issued. -/
inductive SessEvent where
  | qrEvent (rendered : String)
  | newLogin (code : String)
  | openEvent
  | closeEvent (statusCode : Option Nat) (errorMessage : String) (rand5000 : Nat)
  | timeAdvance (ms : Nat)

/-- One event applied to a session. -/
def sessStep (fsEnv : String → Bool) (s : UserWhatsAppSession) :
    SessEvent → UserWhatsAppSession
  | .qrEvent q => qrUpdate s q
  | .newLogin c => newLoginPairing s c
  | .openEvent => openUpdate s
  | .closeEvent code msg r => (closeUpdate fsEnv s code msg r).1
  | .timeAdvance ms =>
      match s.reconnectTimeout with
      | some (d, forceNew) =>
          if d ≤ ms then startUpdate forceNew { s with reconnectTimeout := none } else s
      | none => s

/-- The JSON object returned by `getStatus()`. -/
structure SessionStatus where
  userId : String
  connected : Bool
  state : String
  qrCode : Option String
  qrCodeExists : Bool
  pairingCode : Option String
  pairingCodeExists : Bool
  deriving Repr, DecidableEq

/-- Method `getStatus()`: when the session believes it is connected but the
    socket is null, it corrects itself to disconnected before building the
    returned status; otherwise it reads the fields unchanged.  Returns the
    (possibly mutated) session together with the status object. -/
def getStatus (s : UserWhatsAppSession) : UserWhatsAppSession × SessionStatus :=
  if s.isConnected = true ∧ s.sockPresent = false then
    let s1 := { s with isConnected := false, connectionState := "disconnected" }
    (s1,
      { userId := s1.userId
        connected := false
        state := s1.connectionState
        qrCode := s1.qrCodeData
        qrCodeExists := s1.qrCodeData.isSome
        pairingCode := s1.pairingCode
        pairingCodeExists := s1.pairingCode.isSome })
  else
    (s,
      { userId := s.userId
        connected := s.isConnected
        state := s.connectionState
        qrCode := s.qrCodeData
        qrCodeExists := s.qrCodeData.isSome
        pairingCode := s.pairingCode
        pairingCodeExists := s.pairingCode.isSome })

/-- One session's treatment by the auto-recovery `setInterval` body:
    `credsOnDisk` models `fs.existsSync(authPath) &&
    fs.existsSync(creds.json)`.  Returns `some forceNew` when the sweeper
    calls `session.start(forceNew)`, `none` when it leaves the session
    alone. -/
def sweepAction (s : UserWhatsAppSession) (credsOnDisk : Bool) : Option Bool :=
  if s.isConnected = false ∧ s.connectionState = "disconnected" then
    if credsOnDisk = true ∧ s.reconnectTimeout = none then some false else none
  else none

/-- The whole sweeper pass over the registry: the `start` calls issued, as
    `(userId, forceNew)` pairs. -/
def sweeperPass (l : List (UserWhatsAppSession × Bool)) : List (String × Bool) :=
  l.filterMap fun p => (sweepAction p.1 p.2).map fun f => (p.1.userId, f)

theorem sweepAction_eq_some (s : UserWhatsAppSession) (credsOnDisk : Bool) (b : Bool)
    (h : sweepAction s credsOnDisk = some b) : b = false := by
  unfold sweepAction at h
  split at h
  · split at h
    · exact (Option.some.injEq _ _ ▸ h).symm
    · exact absurd h (by simp)
  · exact absurd h (by simp)

/-- JS digit extraction `str.replace(/\D/g, '')`. -/
def digitsOf (str : String) : String :=
  String.mk (str.toList.filter Char.isDigit)

/-- JS `s.startsWith(pre)`. -/
def strStartsWith (s pre : String) : Bool :=
  pre.toList.isPrefixOf s.toList

/-- Number formatting in `sendMessage`: keep digits, prefix `55` when
    missing, append the WhatsApp JID suffix. -/
def formatJid (number : String) : String :=
  let d := digitsOf number
  let d2 := if strStartsWith d "55" then d else "55" ++ d
  d2 ++ "@s.whatsapp.net"

/-- The transport's behaviour for one `sock.sendMessage` call. -/
inductive SendOutcome where
  | delivered (messageId : String)
  | failed (msg : String)
  deriving Repr, DecidableEq

/-- Observable result of a send: whether the transport send was attempted
    at all, the JID it targeted, the surfaced receipt (message id) or error
    message, and whether an automatic reconnect (`start(false)`) was
    scheduled. -/
structure SendResult where
  attempted : Bool
  target : Option String
  outcome : Except String String
  reconnectScheduled : Bool
  deriving Repr

/-- Method `sendMessage(number, message)`: throws immediately only when
    `this.sock` is null; otherwise the send is attempted even when the
    session is marked disconnected.  A successful send flips the session
    back to connected; a failed send whose error indicates a closed
    connection marks the session disconnected, clears the heartbeat and
    schedules an automatic reconnect, and the error is re-thrown. -/
def sendMessage (s : UserWhatsAppSession) (number : String) (out : SendOutcome) :
    UserWhatsAppSession × SendResult :=
  if s.sockPresent = false then
    (s,
      { attempted := false
        target := none
        outcome := Except.error "WhatsApp não conectado para este usuário"
        reconnectScheduled := false })
  else
    let jid := formatJid number
    match out with
    | .delivered mid =>
        let s1 :=
          if s.isConnected = false then
            { s with isConnected := true, connectionState := "connected" }
          else s
        (s1,
          { attempted := true
            target := some jid
            outcome := Except.ok mid
            reconnectScheduled := false })
    | .failed m =>
        if strContains m "Connection Closed" || strContains m "closed"
            || strContains m "ECONNRESET" then
          ({ s with isConnected := false
                    connectionState := "disconnected"
                    heartbeatIntervalActive := false },
            { attempted := true
              target := some jid
              outcome := Except.error m
              reconnectScheduled := true })
        else
          (s,
            { attempted := true
              target := some jid
              outcome := Except.error m
              reconnectScheduled := false })

/-- The `POST /send/:userId` route: missing session or null socket are
    rejected up front; otherwise `sendMessage` runs and its receipt or
    error is surfaced to the caller. -/
def sendEndpoint (sess : Option UserWhatsAppSession) (number : String)
    (out : SendOutcome) : Option UserWhatsAppSession × SendResult :=
  match sess with
  | none =>
      (none,
        { attempted := false
          target := none
          outcome := Except.error "Sessão não encontrada para este usuário"
          reconnectScheduled := false })
  | some s =>
      if s.sockPresent = false then
        (some s,
          { attempted := false
            target := none
            outcome := Except.error "WhatsApp não conectado para este usuário"
            reconnectScheduled := false })
      else
        let r := sendMessage s number out
        (some r.1, r.2)

/-- Phone validation in `requestPairingCode`: 11 digits starting `61` get
    the Brazil country code prepended, 13 digits starting `55` pass
    through, everything else is rejected. -/
def formatPhone (phone : String) : Except String String :=
  let d := digitsOf phone
  if d.length = 11 ∧ strStartsWith d "61" = true then Except.ok ("55" ++ d)
  else if d.length = 13 ∧ strStartsWith d "55" = true then Except.ok d
  else Except.error "Invalid phone number format"

/-- The teardown performed at the top of `requestPairingCode`: stop
    heartbeat and reconnect timer, close and replace the socket, mark
    disconnected in `generating_pairing_code`, clear both artifacts. -/
def pairingSetupUpdate (s : UserWhatsAppSession) : UserWhatsAppSession :=
  { s with heartbeatIntervalActive := false
           reconnectTimeout := none
           sockPresent := true
           isConnected := false
           connectionState := "generating_pairing_code"
           qrCodeData := none
           pairingCode := none }

/-- The success path of the delayed pairing request: cache the code and
    move to `pairing_code_generated`.  It does not touch `qrCodeData`. -/
def pairingSuccess (s : UserWhatsAppSession) (code : String) : UserWhatsAppSession :=
  { s with pairingCode := some code, connectionState := "pairing_code_generated" }

/-- The `connection === 'close'` branch of the pairing socket's handler:
    only marks the session disconnected (no artifact is cleared). -/
def pairingCloseUpdate (s : UserWhatsAppSession) : UserWhatsAppSession :=
  { s with isConnected := false, connectionState := "disconnected" }

/-- What the transport does during a `requestPairingCode` call: yields a
    code at the 3 s mark, throws at the 3 s mark, closes the connection at
    time `t` before the pairing request, or stays silent until the outer
    30 s timeout. -/
inductive PairingEnv where
  | yields (code : String)
  | errors (msg : String)
  | closesEarly (statusCode : Option Nat) (t : Nat)
  | silent

/-- The object the `requestPairingCode` promise resolves with. -/
structure PairingResult where
  success : Bool
  pairingCode : Option String
  error : Option String
  deriving Repr, DecidableEq

/-- Full outcome of one `requestPairingCode(phone)` call: final session
    state, the resolved result, the time (ms from the call) at which the
    promise resolved, whether the persisted credentials were wiped, and the
    formatted phone number actually passed to the transport (none when the
    request was never made). -/
structure PairingRun where
  session : UserWhatsAppSession
  result : PairingResult
  resolveTimeMs : Nat
  credsWiped : Bool
  askedPhone : Option String
  deriving Repr, DecidableEq

/-- Method `requestPairingCode(phoneNumber)`: tears down any existing
    connection and timers, wipes the auth folder when present
    (`hasAuthOnDisk`), restarts the transport, and resolves with the
    pairing code, with an error, with the early-close error, or with the
    30 s timeout error — the promise always resolves by 30000 ms. -/
def requestPairingCode (s : UserWhatsAppSession) (phone : String)
    (hasAuthOnDisk : Bool) (env : PairingEnv) : PairingRun :=
  let base := pairingSetupUpdate s
  match env with
  | .closesEarly code t =>
      let closed := pairingCloseUpdate base
      if code ≠ some 401 ∧ code ≠ some 515 then
        { session := closed
          result :=
            { success := false, pairingCode := none
              error := some "Connection failed before pairing code generation" }
          resolveTimeMs := min t 30000
          credsWiped := hasAuthOnDisk
          askedPhone := none }
      else
        { session := closed
          result :=
            { success := false, pairingCode := none
              error := some "Timeout generating pairing code" }
          resolveTimeMs := 30000
          credsWiped := hasAuthOnDisk
          askedPhone := none }
  | .yields code =>
      match formatPhone phone with
      | .error m =>
          { session := base
            result := { success := false, pairingCode := none, error := some m }
            resolveTimeMs := 3000
            credsWiped := hasAuthOnDisk
            askedPhone := none }
      | .ok fp =>
          { session := pairingSuccess base code
            result := { success := true, pairingCode := some code, error := none }
            resolveTimeMs := 3000
            credsWiped := hasAuthOnDisk
            askedPhone := some fp }
  | .errors m =>
      match formatPhone phone with
      | .error fm =>
          { session := base
            result := { success := false, pairingCode := none, error := some fm }
            resolveTimeMs := 3000
            credsWiped := hasAuthOnDisk
            askedPhone := none }
      | .ok fp =>
          { session := base
            result := { success := false, pairingCode := none, error := some m }
            resolveTimeMs := 3000
            credsWiped := hasAuthOnDisk
            askedPhone := some fp }
  | .silent =>
      match formatPhone phone with
      | .error fm =>
          { session := base
            result := { success := false, pairingCode := none, error := some fm }
            resolveTimeMs := 3000
            credsWiped := hasAuthOnDisk
            askedPhone := none }
      | .ok fp =>
          { session := base
            result :=
              { success := false, pairingCode := none
                error := some "Timeout generating pairing code" }
            resolveTimeMs := 30000
            credsWiped := hasAuthOnDisk
            askedPhone := some fp }

theorem closeUpdate_qrCodeData (fsEnv : String → Bool) (s : UserWhatsAppSession)
    (c : Option Nat) (m : String) (r : Nat) :
    (closeUpdate fsEnv s c m r).1.qrCodeData
      = if c ≠ some 408 ∧ c ≠ some 428 then none else s.qrCodeData := by
  unfold closeUpdate
  dsimp only
  split_ifs <;> rfl

/-- C5 counterexample: a QR artifact cached by the `qr` handler is still
    served after an arbitrarily long passage of time with no lifecycle
    event (here about 11.5 days), because no TTL timer over `qrCodeData`
    exists anywhere in the source — contradicting the claim that a read at
    any time `≥ t+T` observes the artifact absent. -/
theorem C5_qr_no_ttl_counterexample :
    (sessStep (fun _ => false)
        (qrUpdate (UserWhatsAppSession.new "u5") "QRDATA")
        (SessEvent.timeAdvance 999999999)).qrCodeData = some "QRDATA"
    ∧ (sessStep (fun _ => false)
        (qrUpdate (UserWhatsAppSession.new "u5") "QRDATA")
        (SessEvent.timeAdvance 999999999)).qrCodeData ≠ none := by
  exact ⟨rfl, by decide⟩

/-- C5 amended: the QR artifact has no TTL.  Mere passage of time (with no
    pending reconnect timer due) never clears it; it is cleared only by
    lifecycle events — a successful open, or a close whose status is not
    408/428 (those two preserve it) — or overwritten by a fresh QR. -/
theorem C5_qr_lifecycle_only_amended (fsEnv : String → Bool)
    (s : UserWhatsAppSession) (ms : Nat) (code : Option Nat) (msg : String)
    (rand : Nat)
    (htimer : s.reconnectTimeout = none)
    (h408 : code ≠ some 408) (h428 : code ≠ some 428) :
    ((sessStep fsEnv s (SessEvent.timeAdvance ms)).qrCodeData = s.qrCodeData)
    ∧ ((sessStep fsEnv s SessEvent.openEvent).qrCodeData = none)
    ∧ ((sessStep fsEnv s (SessEvent.closeEvent code msg rand)).qrCodeData = none)
    ∧ ((sessStep fsEnv s (SessEvent.closeEvent (some 408) msg rand)).qrCodeData
        = s.qrCodeData)
    ∧ ((sessStep fsEnv s (SessEvent.closeEvent (some 428) msg rand)).qrCodeData
        = s.qrCodeData) := by
  refine ⟨?_, rfl, ?_, ?_, ?_⟩
  · simp [sessStep, htimer]
  · rw [sessStep, closeUpdate_qrCodeData, if_pos ⟨h408, h428⟩]
  · rw [sessStep, closeUpdate_qrCodeData, if_neg (by simp)]
  · rw [sessStep, closeUpdate_qrCodeData, if_neg (by simp)]

/-- Witness for C5 amended: a concrete cached QR survives one hour of pure
    time passage but is cleared by the open event. -/
theorem C5_qr_witness :
    (sessStep (fun _ => false)
        (qrUpdate (UserWhatsAppSession.new "w5") "QR1")
        (SessEvent.timeAdvance 3600000)).qrCodeData = some "QR1"
    ∧ (sessStep (fun _ => false)
        (qrUpdate (UserWhatsAppSession.new "w5") "QR1")
        SessEvent.openEvent).qrCodeData = none := by
  have h := C5_qr_lifecycle_only_amended (fun _ => false)
    (qrUpdate (UserWhatsAppSession.new "w5") "QR1") 3600000 (some 500) "x" 0
    rfl (by decide) (by decide)
  exact ⟨h.1.trans rfl, h.2.1⟩

/-- C6: the Recovery Sweeper's per-session action calls `start(false)`
    exactly for the sessions that are disconnected with state
    `disconnected`, have credentials on disk, and carry no pending
    reconnect timer; it never passes `forceNew = true` and never acts on a
    session that is connected, is mid-connection (`connecting`), or has a
    pending timer — and every `start` call issued by a whole sweeper pass
    has `forceNew = false`. -/
theorem C6_recovery_sweeper (s : UserWhatsAppSession) (credsOnDisk : Bool)
    (l : List (UserWhatsAppSession × Bool)) :
    (sweepAction s credsOnDisk = some false ↔
      (s.isConnected = false ∧ s.connectionState = "disconnected"
        ∧ credsOnDisk = true ∧ s.reconnectTimeout = none))
    ∧ (∀ b, sweepAction s credsOnDisk = some b → b = false)
    ∧ (s.isConnected = true → sweepAction s credsOnDisk = none)
    ∧ (s.connectionState = "connecting" → sweepAction s credsOnDisk = none)
    ∧ (∀ t, s.reconnectTimeout = some t → sweepAction s credsOnDisk = none)
    ∧ (∀ uid f, (uid, f) ∈ sweeperPass l → f = false) := by
  refine ⟨?_, fun b h => sweepAction_eq_some s credsOnDisk b h, ?_, ?_, ?_, ?_⟩
  · unfold sweepAction
    split_ifs with h1 h2 <;> simp_all
  · intro hc
    simp [sweepAction, hc]
  · intro hs
    have hne : ("connecting" : String) ≠ "disconnected" := by decide
    simp [sweepAction, hs, hne]
  · intro t ht
    simp [sweepAction, ht]
  · intro uid f hmem
    unfold sweeperPass at hmem
    rw [List.mem_filterMap] at hmem
    obtain ⟨p, hp, heq⟩ := hmem
    rcases hopt : sweepAction p.1 p.2 with _ | b
    · rw [hopt] at heq
      simp at heq
    · rw [hopt] at heq
      simp only [Option.map_some', Option.some.injEq, Prod.mk.injEq] at heq
      rw [← heq.2]
      exact sweepAction_eq_some p.1 p.2 b hopt

/-- Witness for C6 at a freshly constructed (hence disconnected, timerless)
    session with credentials on disk. -/
theorem C6_recovery_sweeper_witness :
    sweepAction (UserWhatsAppSession.new "u6") true = some false := by
  exact (C6_recovery_sweeper (UserWhatsAppSession.new "u6") true []).1.mpr
    ⟨rfl, rfl, rfl, rfl⟩

/-- C7 counterexample: a session whose socket exists but which is marked
    disconnected (no open connection) does NOT fail up front: the message
    send is attempted against the transport, and when the transport reports
    the connection closed, an automatic reconnect is scheduled —
    contradicting the claim that without an open connection the call fails
    with a not-connected error, with no attempt and no retry. -/
theorem C7_send_attempted_when_marked_disconnected_counterexample :
    (sendMessage
        { UserWhatsAppSession.new "u7c" with sockPresent := true, isConnected := false }
        "11999887766" (SendOutcome.failed "Connection Closed")).2.attempted = true
    ∧ (sendMessage
        { UserWhatsAppSession.new "u7c" with sockPresent := true, isConnected := false }
        "11999887766" (SendOutcome.failed "Connection Closed")).2.reconnectScheduled
        = true := by
  exact ⟨rfl, rfl⟩

/-- C7 amended: the send call fails up front with a not-connected error
    only when no session exists or the session has no transport handle
    (`sock` null); whenever a handle exists the send is attempted even if
    the session is marked disconnected.  A delivered send returns the
    receipt and marks the session connected; a failed send surfaces the
    transport's error, and an automatic reconnect (`start(false)`) is
    scheduled exactly when that error indicates a closed connection. -/
theorem C7_send_amended (s : UserWhatsAppSession) (number mid emsg : String)
    (out : SendOutcome) :
    ((sendEndpoint none number out).2.attempted = false
      ∧ (sendEndpoint none number out).2.outcome
          = Except.error "Sessão não encontrada para este usuário")
    ∧ (s.sockPresent = false →
        (sendMessage s number out).2.attempted = false
        ∧ (sendMessage s number out).2.outcome
            = Except.error "WhatsApp não conectado para este usuário"
        ∧ (sendMessage s number out).2.reconnectScheduled = false
        ∧ (sendMessage s number out).1 = s)
    ∧ (s.sockPresent = true →
        (sendMessage s number (SendOutcome.delivered mid)).2.attempted = true
        ∧ (sendMessage s number (SendOutcome.delivered mid)).2.outcome = Except.ok mid
        ∧ (sendMessage s number (SendOutcome.delivered mid)).1.isConnected = true)
    ∧ (s.sockPresent = true →
        (sendMessage s number (SendOutcome.failed emsg)).2.attempted = true
        ∧ (sendMessage s number (SendOutcome.failed emsg)).2.outcome = Except.error emsg
        ∧ (sendMessage s number (SendOutcome.failed emsg)).2.reconnectScheduled
            = (strContains emsg "Connection Closed" || strContains emsg "closed"
                || strContains emsg "ECONNRESET")) := by
  refine ⟨⟨rfl, rfl⟩, ?_, ?_, ?_⟩
  · intro h
    simp [sendMessage, h]
  · intro h
    unfold sendMessage
    rw [if_neg (by simp [h])]
    dsimp only
    cases hc : s.isConnected <;> simp [hc]
  · intro h
    unfold sendMessage
    rw [if_neg (by simp [h])]
    dsimp only
    cases hA : strContains emsg "Connection Closed" <;>
      cases hB : strContains emsg "closed" <;>
        cases hC : strContains emsg "ECONNRESET" <;>
          simp [hA, hB, hC]

/-- Witness for C7 amended: with a live socket a delivered send yields the
    receipt, and an `ECONNRESET` failure schedules the reconnect. -/
theorem C7_send_witness :
    (sendMessage { UserWhatsAppSession.new "w7" with sockPresent := true }
        "6199887766" (SendOutcome.delivered "MSGID")).2.outcome = Except.ok "MSGID"
    ∧ (sendMessage { UserWhatsAppSession.new "w7" with sockPresent := true }
        "6199887766" (SendOutcome.failed "ECONNRESET")).2.reconnectScheduled = true := by
  have h := C7_send_amended
    { UserWhatsAppSession.new "w7" with sockPresent := true }
    "6199887766" "MSGID" "ECONNRESET" (SendOutcome.delivered "MSGID")
  exact ⟨(h.2.2.1 rfl).2.1, ((h.2.2.2 rfl).2.2).trans (by decide)⟩

/-- C8 counterexample: starting from a fresh session, the code's own
    handlers reach a state where both artifacts are cached at once: pairing
    setup and success cache a pairing code, the pairing connection closes
    (which clears no artifact), a plain `start(false)` (e.g. from the
    sweeper) restarts the transport, and the next QR event caches a QR
    without clearing the stale pairing code — contradicting the claimed
    mutual exclusion. -/
theorem C8_qr_pairing_both_nonnull_counterexample :
    (qrUpdate (startUpdate false (pairingCloseUpdate
        (pairingSuccess (pairingSetupUpdate (UserWhatsAppSession.new "u8"))
          "PAIR1234"))) "QRDATA").qrCodeData = some "QRDATA"
    ∧ (qrUpdate (startUpdate false (pairingCloseUpdate
        (pairingSuccess (pairingSetupUpdate (UserWhatsAppSession.new "u8"))
          "PAIR1234"))) "QRDATA").pairingCode = some "PAIR1234" := by
  exact ⟨rfl, rfl⟩

/-- C8 amended: the open handler and the pairing setup do clear both
    artifacts, but the QR handler caches a QR without touching the pairing
    code and the pairing success path caches a code without touching the
    QR, so the two artifacts are not mutually exclusive in general. -/
theorem C8_artifact_clearing_amended (s : UserWhatsAppSession) (q c : String) :
    ((openUpdate s).qrCodeData = none ∧ (openUpdate s).pairingCode = none)
    ∧ ((pairingSetupUpdate s).qrCodeData = none
        ∧ (pairingSetupUpdate s).pairingCode = none)
    ∧ ((qrUpdate s q).pairingCode = s.pairingCode
        ∧ (qrUpdate s q).qrCodeData = some q)
    ∧ ((pairingSuccess s c).qrCodeData = s.qrCodeData
        ∧ (pairingSuccess s c).pairingCode = some c) := by
  exact ⟨⟨rfl, rfl⟩, ⟨rfl, rfl⟩, ⟨rfl, rfl⟩, ⟨rfl, rfl⟩⟩

/-- C9: `requestPairingCode` always tears down the previous connection
    (heartbeat stopped, reconnect timer cancelled), wipes the persisted
    credentials exactly when they exist on disk, resolves within the 30 s
    bound, resolves with either a pairing code (success) or an error, and
    on the success path passes the formatted phone number to the
    transport. -/
theorem C9_requestPairing_teardown_bounded (s : UserWhatsAppSession) (phone : String)
    (hasAuthOnDisk : Bool) (env : PairingEnv) :
    ((requestPairingCode s phone hasAuthOnDisk env).session.reconnectTimeout = none)
    ∧ ((requestPairingCode s phone hasAuthOnDisk env).session.heartbeatIntervalActive
        = false)
    ∧ ((requestPairingCode s phone hasAuthOnDisk env).credsWiped = hasAuthOnDisk)
    ∧ ((requestPairingCode s phone hasAuthOnDisk env).resolveTimeMs ≤ 30000)
    ∧ ((requestPairingCode s phone hasAuthOnDisk env).result.success = true
          ∧ (requestPairingCode s phone hasAuthOnDisk env).result.pairingCode.isSome
              = true
        ∨ (requestPairingCode s phone hasAuthOnDisk env).result.success = false
          ∧ (requestPairingCode s phone hasAuthOnDisk env).result.error.isSome = true)
    ∧ (∀ fp c, formatPhone phone = Except.ok fp → env = PairingEnv.yields c →
        (requestPairingCode s phone hasAuthOnDisk env).askedPhone = some fp
        ∧ (requestPairingCode s phone hasAuthOnDisk env).result.pairingCode = some c
        ∧ (requestPairingCode s phone hasAuthOnDisk env).result.success = true) := by
  cases env with
  | yields code =>
      rcases hfp : formatPhone phone with m | fp <;>
        simp [requestPairingCode, hfp, pairingSetupUpdate, pairingSuccess]
  | errors m =>
      rcases hfp : formatPhone phone with fm | fp <;>
        simp [requestPairingCode, hfp, pairingSetupUpdate]
  | silent =>
      rcases hfp : formatPhone phone with fm | fp <;>
        simp [requestPairingCode, hfp, pairingSetupUpdate]
  | closesEarly code t =>
      dsimp only [requestPairingCode]
      split_ifs with hcode <;>
        simp [pairingSetupUpdate, pairingCloseUpdate, Nat.min_le_right, inf_le_right]

/-- Witness for C9 at a valid 13-digit phone and a transport that yields a
    code. -/
theorem C9_requestPairing_witness :
    (requestPairingCode (UserWhatsAppSession.new "u9") "5561999887766" true
        (PairingEnv.yields "ABCD-1234")).result.success = true
    ∧ (requestPairingCode (UserWhatsAppSession.new "u9") "5561999887766" true
        (PairingEnv.yields "ABCD-1234")).result.pairingCode = some "ABCD-1234"
    ∧ (requestPairingCode (UserWhatsAppSession.new "u9") "5561999887766" true
        (PairingEnv.yields "ABCD-1234")).resolveTimeMs ≤ 30000
    ∧ (requestPairingCode (UserWhatsAppSession.new "u9") "5561999887766" true
        (PairingEnv.yields "ABCD-1234")).credsWiped = true
    ∧ (requestPairingCode (UserWhatsAppSession.new "u9") "5561999887766" true
        (PairingEnv.yields "ABCD-1234")).askedPhone = some "5561999887766" := by
  have h := C9_requestPairing_teardown_bounded (UserWhatsAppSession.new "u9")
    "5561999887766" true (PairingEnv.yields "ABCD-1234")
  have hlast := h.2.2.2.2.2 "5561999887766" "ABCD-1234" rfl rfl
  exact ⟨hlast.2.2, hlast.2.1, h.2.2.2.1, h.2.2.1, hlast.1⟩

/-- C10: `getStatus` is not a pure read.  Exactly when the session believes
    it is connected but its socket is null, the call mutates the session to
    disconnected (both flag and lifecycle state) and reports the corrected
    status; in every other case the session is returned unchanged and the
    status mirrors its fields. -/
theorem C10_getStatus_self_correcting (s : UserWhatsAppSession) :
    ((s.isConnected = true ∧ s.sockPresent = false) →
      (getStatus s).1 = { s with isConnected := false
                                 connectionState := "disconnected" }
      ∧ (getStatus s).2.connected = false
      ∧ (getStatus s).2.state = "disconnected")
    ∧ (¬ (s.isConnected = true ∧ s.sockPresent = false) →
      (getStatus s).1 = s
      ∧ (getStatus s).2.connected = s.isConnected
      ∧ (getStatus s).2.state = s.connectionState) := by
  constructor
  · intro h
    unfold getStatus
    rw [if_pos h]
    exact ⟨rfl, rfl, rfl⟩
  · intro h
    unfold getStatus
    rw [if_neg h]
    exact ⟨rfl, rfl, rfl⟩

/-- Witness for C10: a zombie session (connected flag set, socket null) is
    corrected by `getStatus`, and a fresh session is left unchanged. -/
theorem C10_getStatus_witness :
    (getStatus { UserWhatsAppSession.new "z" with isConnected := true }).2.connected
        = false
    ∧ (getStatus { UserWhatsAppSession.new "z" with
        isConnected := true }).1.isConnected = false
    ∧ (getStatus (UserWhatsAppSession.new "k")).1 = UserWhatsAppSession.new "k" := by
  have hz := (C10_getStatus_self_correcting
    { UserWhatsAppSession.new "z" with isConnected := true }).1 ⟨rfl, rfl⟩
  have hk := (C10_getStatus_self_correcting (UserWhatsAppSession.new "k")).2
    (by simp [UserWhatsAppSession.new])
  refine ⟨hz.2.1, ?_, hk.1⟩
  rw [hz.1]

end WhatsServer
